import Mathlib

/-!
Shallow embedding of `src/ads_mcp/tools/mutations.py`, the single source file
of the google-ads-mcp repository.  Each tool translates structured parameters
into mutation requests against the Google Ads API.  The vendor client is
modelled by an `Env` record whose operations may return a value or raise an
exception (`Except Exc`); every vendor request a tool issues is recorded in a
`Trace`, so properties about which requests are made (and in how many calls)
are expressible.  Python dict results are modelled as association lists of
string keys and `Value`s (booleans or strings), in literal order.
-/

namespace AdsMcp

/-- One entry of `ex.failure.errors` of a `GoogleAdsException`:
`error_code` and `message` are modelled by their string renderings, which is
all `_extract_error_details` uses of them. -/
structure GoogleAdsError where
  error_code : String
  message : String
deriving DecidableEq

/-- The `failure` payload of a `GoogleAdsException`. -/
structure GoogleAdsFailure where
  errors : List GoogleAdsError
deriving DecidableEq

/-- A `GoogleAdsException` raised by the vendor client: its `failure` and the
string `str(ex)` would produce. -/
structure GoogleAdsException where
  failure : GoogleAdsFailure
  str_val : String
deriving DecidableEq

/-- A Python exception as observed by the tools' `except` clauses: either a
`GoogleAdsException`, or any other exception carrying the string `str(ex)`. -/
inductive Exc where
  | ads : GoogleAdsException → Exc
  | other : String → Exc
deriving DecidableEq

/-- A value stored in a tool's result dict: the tools only store booleans and
strings. -/
inductive Value where
  | vBool : Bool → Value
  | vStr : String → Value
deriving DecidableEq

/-- A tool's result dict, as an association list in literal key order. -/
abbrev ToolResult := List (String × Value)

/-- Python dict lookup on a result dict. -/
def dictGet (r : ToolResult) (k : String) : Option Value :=
  match r.find? (fun p => p.fst == k) with
  | some p => some p.snd
  | none => none

/-- The `campaign.network_settings` sub-message set by `create_campaign` for
SEARCH campaigns. -/
structure NetworkSettings where
  target_google_search : Bool
  target_search_network : Bool
  target_content_network : Bool
  target_partner_search_network : Bool
deriving DecidableEq

/-- The `ad` sub-message built by `create_responsive_search_ad`: final URLs,
the headline and description texts in append order, and the optional display
paths (`none` models a field left unset). -/
structure AdInfo where
  final_urls : List String
  headlines : List String
  descriptions : List String
  path1 : Option String
  path2 : Option String
deriving DecidableEq

/-- A `MutateOperation` as populated by the tools.  Each constructor carries
exactly the fields the corresponding tool sets; enum-valued fields hold the
string returned by the enum attribute lookup; an `update` constructor also
carries its `update_mask.paths` list in append order. -/
inductive MutateOperation where
  | campaignBudgetCreate (resource_name : String) (name : String)
      (amount_micros : Int) (delivery_method : String)
      (explicitly_shared : Bool) : MutateOperation
  | campaignCreate (name : String) (advertising_channel_type : String)
      (status : String) (campaign_budget : String)
      (network_settings : Option NetworkSettings) : MutateOperation
  | adGroupCreate (name : String) (campaign : String) (status : String)
      (cpc_bid_micros : Int) : MutateOperation
  | adGroupAdCreate (ad_group : String) (status : String)
      (ad : AdInfo) : MutateOperation
  | adGroupCriterionCreate (ad_group : String) (status : String)
      (keyword_text : String) (keyword_match_type : String)
      (cpc_bid_micros : Option Int) : MutateOperation
  | campaignBudgetUpdate (resource_name : String) (amount_micros : Int)
      (update_mask : List String) : MutateOperation
  | campaignUpdate (resource_name : String) (status : Option String)
      (name : Option String) (update_mask : List String) : MutateOperation
deriving DecidableEq

/-- A single result inside a mutate response (`.*_result`); only its
`resource_name` is read by the tools. -/
structure MutateResult where
  resource_name : String
deriving DecidableEq

/-- One element of `response.mutate_operation_responses`.  Reading an unset
result field of a proto message yields a default (empty) sub-message rather
than raising, so every result field is total here. -/
structure MutateOperationResponse where
  campaign_budget_result : MutateResult
  campaign_result : MutateResult
  ad_group_result : MutateResult
  ad_group_ad_result : MutateResult
  ad_group_criterion_result : MutateResult
deriving DecidableEq

/-- The response of `GoogleAdsService.mutate`. -/
structure MutateResponse where
  mutate_operation_responses : List MutateOperationResponse
deriving DecidableEq

/-- A row returned by the budget search in `update_campaign`; the query
selects only `campaign.campaign_budget`, modelled here directly. -/
structure SearchRow where
  campaign_budget : String
deriving DecidableEq

/-- One batch of a `search_stream` response. -/
structure SearchBatch where
  results : List SearchRow
deriving DecidableEq

/-- A vendor request issued by a tool: a `GoogleAdsService.mutate` call with
its customer id and operation list, or a `search_stream` call with its
customer id and query string. -/
inductive VendorCall where
  | mutateCall : String → List MutateOperation → VendorCall
  | searchCall : String → String → VendorCall
deriving DecidableEq

/-- The ordered list of vendor requests issued during one tool invocation. -/
abbrev Trace := List VendorCall

/-- The vendor client as seen by the tools.  `mutate` and `search_stream`
may return a response or raise; `enum_attr enum member` models
`getattr(<enum>, <member>)` on a vendor enum type, which returns the enum
value (modelled by a string) or raises `AttributeError` for an unknown
member. -/
structure Env where
  mutate : String → List MutateOperation → Except Exc MutateResponse
  search_stream : String → String → Except Exc (List SearchBatch)
  enum_attr : String → String → Except Exc String

/-- Python's truthiness test on an optional string (`if path1:`):
`None` and the empty string are falsy. -/
def optTruthy : Option String → Bool
  | none => false
  | some s => !(s == "")

/-- Indexing a repeated proto field (`responses[i]`): out of range raises
`IndexError`, whose `str` is the carried message. -/
def repeatedGet (l : List MutateOperationResponse) (i : Nat) :
    Except Exc MutateOperationResponse :=
  match l.get? i with
  | some x => Except.ok x
  | none => Except.error (Exc.other "list index out of range")

/-- Python's `resource_name.split("/")[-1]`; `split` never returns an empty
list, so the `[-1]` index is total. -/
def lastPathSegment (s : String) : String :=
  (s.splitOn "/").getLastD ""

/-- Embedding of `_extract_error_details`: join `"{error_code}: {message}"`
over `ex.failure.errors` with `"; "`, falling back to `str(ex)` when the
list is empty. -/
def _extract_error_details (ex : GoogleAdsException) : String :=
  let error_messages :=
    ex.failure.errors.map (fun error => error.error_code ++ ": " ++ error.message)
  if error_messages.isEmpty then ex.str_val
  else String.intercalate "; " error_messages

/-- The result dict built by the two `except` clauses shared by every tool:
`GoogleAdsException` is flattened by `_extract_error_details`, any other
exception is stringified. -/
def exceptionResult (e : Exc) : ToolResult :=
  match e with
  | Exc.ads ex =>
      [("success", Value.vBool false),
       ("error", Value.vStr (_extract_error_details ex))]
  | Exc.other s =>
      [("success", Value.vBool false),
       ("error", Value.vStr s)]

/-- Wrap a tool's `try` body with its `except` clauses: an exception becomes
the uniform failure dict, and the trace of issued vendor calls is kept. -/
def runTool (p : Except Exc ToolResult × Trace) : ToolResult × Trace :=
  match p.fst with
  | Except.ok r => (r, p.snd)
  | Except.error e => (exceptionResult e, p.snd)

/-- The `try` body of `create_campaign`: build the budget operation (with the
temporary resource name ending in `campaignBudgets` slash `-1`) and the
campaign operation linking to it, submit both in a single `mutate` call, and
read the two results back.  Enum lookups occur in source order
(delivery method, channel type, status); pure construction steps are grouped
around them. -/
def create_campaign_try (env : Env) (customer_id : String) (name : String)
    (budget_amount_micros : Int) (advertising_channel_type : String)
    (status : String) (budget_delivery_method : String) :
    Except Exc ToolResult × Trace :=
  match env.enum_attr "BudgetDeliveryMethod" budget_delivery_method with
  | Except.error e => (Except.error e, [])
  | Except.ok delivery_method_value =>
    let temp_budget_rn := "customers/" ++ customer_id ++ "/campaignBudgets/-1"
    let campaign_budget_operation := MutateOperation.campaignBudgetCreate
        temp_budget_rn (name ++ " Budget") budget_amount_micros
        delivery_method_value false
    match env.enum_attr "AdvertisingChannelType" advertising_channel_type with
    | Except.error e => (Except.error e, [])
    | Except.ok channel_type_value =>
      match env.enum_attr "CampaignStatus" status with
      | Except.error e => (Except.error e, [])
      | Except.ok status_value =>
        let network_settings : Option NetworkSettings :=
          if advertising_channel_type = "SEARCH" then
            some ⟨true, true, false, false⟩
          else none
        let campaign_operation := MutateOperation.campaignCreate
            name channel_type_value status_value temp_budget_rn network_settings
        let mutate_operations := [campaign_budget_operation, campaign_operation]
        let t := [VendorCall.mutateCall customer_id mutate_operations]
        match env.mutate customer_id mutate_operations with
        | Except.error e => (Except.error e, t)
        | Except.ok response =>
          match repeatedGet response.mutate_operation_responses 0 with
          | Except.error e => (Except.error e, t)
          | Except.ok resp0 =>
            match repeatedGet response.mutate_operation_responses 1 with
            | Except.error e => (Except.error e, t)
            | Except.ok resp1 =>
              let budget_result := resp0.campaign_budget_result
              let campaign_result := resp1.campaign_result
              let campaign_id := lastPathSegment campaign_result.resource_name
              (Except.ok
                [("success", Value.vBool true),
                 ("campaign_resource_name", Value.vStr campaign_result.resource_name),
                 ("campaign_id", Value.vStr campaign_id),
                 ("budget_resource_name", Value.vStr budget_result.resource_name)], t)

/-- `create_campaign`: the `try` body wrapped by the shared `except`
clauses. -/
def create_campaign (env : Env) (customer_id : String) (name : String)
    (budget_amount_micros : Int) (advertising_channel_type : String)
    (status : String) (budget_delivery_method : String) : ToolResult × Trace :=
  runTool (create_campaign_try env customer_id name budget_amount_micros
    advertising_channel_type status budget_delivery_method)

/-- The `try` body of `create_ad_group`: build one ad-group operation and
submit it in a single `mutate` call. -/
def create_ad_group_try (env : Env) (customer_id : String)
    (campaign_id : String) (name : String) (cpc_bid_micros : Int)
    (status : String) : Except Exc ToolResult × Trace :=
  match env.enum_attr "AdGroupStatus" status with
  | Except.error e => (Except.error e, [])
  | Except.ok status_value =>
    let ad_group_operation := MutateOperation.adGroupCreate
        name ("customers/" ++ customer_id ++ "/campaigns/" ++ campaign_id)
        status_value cpc_bid_micros
    let t := [VendorCall.mutateCall customer_id [ad_group_operation]]
    match env.mutate customer_id [ad_group_operation] with
    | Except.error e => (Except.error e, t)
    | Except.ok response =>
      match repeatedGet response.mutate_operation_responses 0 with
      | Except.error e => (Except.error e, t)
      | Except.ok resp0 =>
        let ad_group_result := resp0.ad_group_result
        let ad_group_id := lastPathSegment ad_group_result.resource_name
        (Except.ok
          [("success", Value.vBool true),
           ("ad_group_resource_name", Value.vStr ad_group_result.resource_name),
           ("ad_group_id", Value.vStr ad_group_id)], t)

/-- `create_ad_group`: the `try` body wrapped by the shared `except`
clauses. -/
def create_ad_group (env : Env) (customer_id : String) (campaign_id : String)
    (name : String) (cpc_bid_micros : Int) (status : String) :
    ToolResult × Trace :=
  runTool (create_ad_group_try env customer_id campaign_id name
    cpc_bid_micros status)

/-- The `try` body of `create_responsive_search_ad`: list-length validation
first (returning a failure dict without touching the vendor), then one
ad-group-ad operation holding the ad with headlines and descriptions appended
in input order and the display paths set only when truthy, submitted in a
single `mutate` call.  The ad status is the literal enum member `ENABLED`. -/
def create_responsive_search_ad_try (env : Env) (customer_id : String)
    (ad_group_id : String) (headlines : List String)
    (descriptions : List String) (final_urls : List String)
    (path1 : Option String) (path2 : Option String) :
    Except Exc ToolResult × Trace :=
  if headlines.length < 3 then
    (Except.ok
      [("success", Value.vBool false),
       ("error", Value.vStr "At least 3 headlines are required for a responsive search ad")], [])
  else if descriptions.length < 2 then
    (Except.ok
      [("success", Value.vBool false),
       ("error", Value.vStr "At least 2 descriptions are required for a responsive search ad")], [])
  else
    let ad : AdInfo :=
      ⟨final_urls, headlines, descriptions,
       (if optTruthy path1 then path1 else none),
       (if optTruthy path2 then path2 else none)⟩
    let mutate_operation := MutateOperation.adGroupAdCreate
        ("customers/" ++ customer_id ++ "/adGroups/" ++ ad_group_id)
        "ENABLED" ad
    let t := [VendorCall.mutateCall customer_id [mutate_operation]]
    match env.mutate customer_id [mutate_operation] with
    | Except.error e => (Except.error e, t)
    | Except.ok response =>
      match repeatedGet response.mutate_operation_responses 0 with
      | Except.error e => (Except.error e, t)
      | Except.ok resp0 =>
        let ad_group_ad_result := resp0.ad_group_ad_result
        (Except.ok
          [("success", Value.vBool true),
           ("ad_group_ad_resource_name", Value.vStr ad_group_ad_result.resource_name)], t)

/-- `create_responsive_search_ad`: the `try` body wrapped by the shared
`except` clauses. -/
def create_responsive_search_ad (env : Env) (customer_id : String)
    (ad_group_id : String) (headlines : List String)
    (descriptions : List String) (final_urls : List String)
    (path1 : Option String) (path2 : Option String) : ToolResult × Trace :=
  runTool (create_responsive_search_ad_try env customer_id ad_group_id
    headlines descriptions final_urls path1 path2)

/-- The `try` body of `create_keyword`: build one ad-group-criterion
operation (keyword status is the literal enum member `ENABLED`; the CPC bid
is set only when provided) and submit it in a single `mutate` call. -/
def create_keyword_try (env : Env) (customer_id : String)
    (ad_group_id : String) (text : String) (match_type : String)
    (cpc_bid_micros : Option Int) : Except Exc ToolResult × Trace :=
  match env.enum_attr "KeywordMatchType" match_type with
  | Except.error e => (Except.error e, [])
  | Except.ok match_type_value =>
    let mutate_operation := MutateOperation.adGroupCriterionCreate
        ("customers/" ++ customer_id ++ "/adGroups/" ++ ad_group_id)
        "ENABLED" text match_type_value cpc_bid_micros
    let t := [VendorCall.mutateCall customer_id [mutate_operation]]
    match env.mutate customer_id [mutate_operation] with
    | Except.error e => (Except.error e, t)
    | Except.ok response =>
      match repeatedGet response.mutate_operation_responses 0 with
      | Except.error e => (Except.error e, t)
      | Except.ok resp0 =>
        let criterion_result := resp0.ad_group_criterion_result
        (Except.ok
          [("success", Value.vBool true),
           ("ad_group_criterion_resource_name", Value.vStr criterion_result.resource_name)], t)

/-- `create_keyword`: the `try` body wrapped by the shared `except`
clauses. -/
def create_keyword (env : Env) (customer_id : String) (ad_group_id : String)
    (text : String) (match_type : String) (cpc_bid_micros : Option Int) :
    ToolResult × Trace :=
  runTool (create_keyword_try env customer_id ad_group_id text match_type
    cpc_bid_micros)

/-- The GAQL query `update_campaign` issues to find a campaign's budget,
exactly as the f-string in the source renders it. -/
def budget_query (campaign_id : String) : String :=
  "\n                SELECT campaign.campaign_budget\n                FROM campaign\n                WHERE campaign.id = " ++ campaign_id ++ "\n            "

/-- The double `for`/`break` loop over the search-stream batches: the first
row of the first batch, if any (later batches are never reached). -/
def firstRowBudget (batches : List SearchBatch) : Option String :=
  match batches with
  | [] => none
  | batch :: _ =>
    match batch.results with
    | [] => none
    | row :: _ => some row.campaign_budget

/-- The `try` body of `update_campaign`: reject when no field is provided;
when a budget amount is given, first query the campaign's budget resource
name and, only when the result is truthy, add a budget-update operation with
mask `["amount_micros"]`; then add a campaign-update operation whose mask
lists exactly the provided fields (`status` before `name`); reject when no
operation was built, otherwise submit every operation in a single `mutate`
call. -/
def update_campaign_try (env : Env) (customer_id : String)
    (campaign_id : String) (status : Option String) (name : Option String)
    (budget_amount_micros : Option Int) : Except Exc ToolResult × Trace :=
  if status.isNone && name.isNone && budget_amount_micros.isNone then
    (Except.ok
      [("success", Value.vBool false),
       ("error", Value.vStr "At least one field to update must be provided (status, name, or budget_amount_micros)")], [])
  else
    -- continuation after the campaign operation is (possibly) appended
    let submit := fun (mutate_operations : List MutateOperation)
        (budget_updated : Bool) (t0 : Trace) =>
      if mutate_operations.isEmpty then
        ((Except.ok
          [("success", Value.vBool false),
           ("error", Value.vStr "No valid updates to perform")] :
            Except Exc ToolResult), t0)
      else
        let t := t0 ++ [VendorCall.mutateCall customer_id mutate_operations]
        match env.mutate customer_id mutate_operations with
        | Except.error e => (Except.error e, t)
        | Except.ok _response =>
          (Except.ok
            [("success", Value.vBool true),
             ("campaign_resource_name",
              Value.vStr ("customers/" ++ customer_id ++ "/campaigns/" ++ campaign_id)),
             ("budget_updated", Value.vBool budget_updated)], t)
    -- continuation building the campaign field-update operation
    let campaignPart := fun (budget_ops : List MutateOperation)
        (budget_updated : Bool) (t0 : Trace) =>
      if status.isSome || name.isSome then
        let resource_name :=
          "customers/" ++ customer_id ++ "/campaigns/" ++ campaign_id
        let update_mask_paths :=
          (if status.isSome then ["status"] else [])
            ++ (if name.isSome then ["name"] else [])
        match status with
        | some status_str =>
          (match env.enum_attr "CampaignStatus" status_str with
           | Except.error e => ((Except.error e : Except Exc ToolResult), t0)
           | Except.ok status_value =>
             let campaign_operation := MutateOperation.campaignUpdate
                 resource_name (some status_value) name update_mask_paths
             submit (budget_ops ++ [campaign_operation]) budget_updated t0)
        | none =>
          let campaign_operation := MutateOperation.campaignUpdate
              resource_name none name update_mask_paths
          submit (budget_ops ++ [campaign_operation]) budget_updated t0
      else
        submit budget_ops budget_updated t0
    match budget_amount_micros with
    | none => campaignPart [] false []
    | some amount =>
      let query := budget_query campaign_id
      let t0 := [VendorCall.searchCall customer_id query]
      match env.search_stream customer_id query with
      | Except.error e => (Except.error e, t0)
      | Except.ok batches =>
        let budget_resource_name := firstRowBudget batches
        if optTruthy budget_resource_name then
          match budget_resource_name with
          | some rn =>
            let budget_operation := MutateOperation.campaignBudgetUpdate
                rn amount ["amount_micros"]
            campaignPart [budget_operation] true t0
          | none => campaignPart [] false t0
        else
          campaignPart [] false t0

/-- `update_campaign`: the `try` body wrapped by the shared `except`
clauses. -/
def update_campaign (env : Env) (customer_id : String) (campaign_id : String)
    (status : Option String) (name : Option String)
    (budget_amount_micros : Option Int) : ToolResult × Trace :=
  runTool (update_campaign_try env customer_id campaign_id status name
    budget_amount_micros)

/-! ### Concrete sample data, used to instantiate theorems with hypotheses -/

/-- A sample mutate-operation response entry with distinct resource names. -/
def sampleOpResponse : MutateOperationResponse :=
  ⟨⟨"customers/1/campaignBudgets/11"⟩, ⟨"customers/1/campaigns/22"⟩,
   ⟨"customers/1/adGroups/33"⟩, ⟨"customers/1/adGroupAds/33~44"⟩,
   ⟨"customers/1/adGroupCriteria/33~55"⟩⟩

/-- A sample mutate response with two entries. -/
def sampleResponse : MutateResponse := ⟨[sampleOpResponse, sampleOpResponse]⟩

/-- A sample `GoogleAdsException` with one error in its failure payload. -/
def sampleAdsException : GoogleAdsException :=
  ⟨⟨[⟨"AuthorizationError.USER_PERMISSION_DENIED", "User does not have permission"⟩]⟩,
   "GoogleAdsException raw form"⟩

/-- A vendor client whose calls all succeed: `mutate` returns
`sampleResponse`, the budget search finds one row, and enum lookups echo the
member name. -/
def envOk : Env :=
  ⟨fun _ _ => Except.ok sampleResponse,
   fun _ _ => Except.ok [⟨[⟨"customers/1/campaignBudgets/11"⟩]⟩],
   fun _ member => Except.ok member⟩

/-- A vendor client whose `mutate` and `search_stream` raise
`sampleAdsException`; enum lookups still succeed. -/
def envAds : Env :=
  ⟨fun _ _ => Except.error (Exc.ads sampleAdsException),
   fun _ _ => Except.error (Exc.ads sampleAdsException),
   fun _ member => Except.ok member⟩

/-- A vendor client whose `mutate` and `search_stream` raise a non-Ads
exception; enum lookups still succeed. -/
def envOther : Env :=
  ⟨fun _ _ => Except.error (Exc.other "connection reset"),
   fun _ _ => Except.error (Exc.other "connection reset"),
   fun _ member => Except.ok member⟩

/-- A vendor client like `envOk` whose budget search returns no rows. -/
def envNoBudget : Env :=
  ⟨fun _ _ => Except.ok sampleResponse,
   fun _ _ => Except.ok [],
   fun _ member => Except.ok member⟩

/-- The exception contract of every tool: whenever its `try` body raises a
`GoogleAdsException` the tool returns the flattened failure dict, and
whenever it raises any other exception the tool returns the stringified
failure dict; in particular the exception never propagates. -/
def excHandled (tr : Except Exc ToolResult × Trace)
    (res : ToolResult × Trace) : Prop :=
  (∀ ex, tr.fst = Except.error (Exc.ads ex) →
    res.fst = [("success", Value.vBool false),
               ("error", Value.vStr (_extract_error_details ex))]) ∧
  (∀ s, tr.fst = Except.error (Exc.other s) →
    res.fst = [("success", Value.vBool false), ("error", Value.vStr s)])

/-- `runTool` satisfies the exception contract for any `try` body. -/
theorem runTool_excHandled (p : Except Exc ToolResult × Trace) :
    excHandled p (runTool p) := by
  constructor
  · intro ex h
    simp [runTool, h, exceptionResult]
  · intro s h
    simp [runTool, h, exceptionResult]

/-- Wrapping a `try` body with the `except` clauses leaves the trace of
issued vendor calls unchanged. -/
theorem runTool_snd (p : Except Exc ToolResult × Trace) :
    (runTool p).snd = p.snd := by
  cases h : p.fst <;> simp [runTool, h]

/-- Test for a mutate request in a trace. -/
def isMutate : VendorCall → Bool
  | VendorCall.mutateCall _ _ => true
  | VendorCall.searchCall _ _ => false

/-- The mutate requests of a trace, in order. -/
def mutateCallsOf (t : Trace) : Trace := t.filter isMutate

/-- The trace of `create_campaign` is empty (an enum lookup raised before
submission) or a single mutate call submitting the budget-create and
campaign-create operations together, fully determined by the inputs up to
the enum values returned by the client. -/
theorem create_campaign_trace_cases (env : Env) (customer_id : String)
    (name : String) (budget_amount_micros : Int)
    (advertising_channel_type : String) (status : String)
    (budget_delivery_method : String) :
    (create_campaign env customer_id name budget_amount_micros
        advertising_channel_type status budget_delivery_method).snd = [] ∨
    ∃ dmv chv stv,
      (create_campaign env customer_id name budget_amount_micros
          advertising_channel_type status budget_delivery_method).snd =
        [VendorCall.mutateCall customer_id
          [MutateOperation.campaignBudgetCreate
            ("customers/" ++ customer_id ++ "/campaignBudgets/-1")
            (name ++ " Budget") budget_amount_micros dmv false,
           MutateOperation.campaignCreate name chv stv
            ("customers/" ++ customer_id ++ "/campaignBudgets/-1")
            (if advertising_channel_type = "SEARCH" then
              some ⟨true, true, false, false⟩
             else none)]] := by
  unfold create_campaign
  rw [runTool_snd]
  unfold create_campaign_try
  split
  · exact Or.inl rfl
  · try dsimp only
    split
    · exact Or.inl rfl
    · try dsimp only
      split
      · exact Or.inl rfl
      · try dsimp only
        split
        · exact Or.inr ⟨_, _, _, rfl⟩
        · split
          · exact Or.inr ⟨_, _, _, rfl⟩
          · split <;> exact Or.inr ⟨_, _, _, rfl⟩

/-- The trace of `create_ad_group` is empty or a single mutate call with the
one ad-group-create operation. -/
theorem create_ad_group_trace_cases (env : Env) (customer_id : String)
    (campaign_id : String) (name : String) (cpc_bid_micros : Int)
    (status : String) :
    (create_ad_group env customer_id campaign_id name cpc_bid_micros
        status).snd = [] ∨
    ∃ stv,
      (create_ad_group env customer_id campaign_id name cpc_bid_micros
          status).snd =
        [VendorCall.mutateCall customer_id
          [MutateOperation.adGroupCreate name
            ("customers/" ++ customer_id ++ "/campaigns/" ++ campaign_id)
            stv cpc_bid_micros]] := by
  unfold create_ad_group
  rw [runTool_snd]
  unfold create_ad_group_try
  split
  · exact Or.inl rfl
  · try dsimp only
    split
    · exact Or.inr ⟨_, rfl⟩
    · split <;> exact Or.inr ⟨_, rfl⟩

/-- The trace of `create_responsive_search_ad` is empty (length validation
failed) or a single mutate call with the one ad-group-ad operation. -/
theorem create_responsive_search_ad_trace_cases (env : Env)
    (customer_id : String) (ad_group_id : String) (headlines : List String)
    (descriptions : List String) (final_urls : List String)
    (path1 : Option String) (path2 : Option String) :
    (create_responsive_search_ad env customer_id ad_group_id headlines
        descriptions final_urls path1 path2).snd = [] ∨
    (create_responsive_search_ad env customer_id ad_group_id headlines
        descriptions final_urls path1 path2).snd =
      [VendorCall.mutateCall customer_id
        [MutateOperation.adGroupAdCreate
          ("customers/" ++ customer_id ++ "/adGroups/" ++ ad_group_id)
          "ENABLED"
          ⟨final_urls, headlines, descriptions,
           (if optTruthy path1 then path1 else none),
           (if optTruthy path2 then path2 else none)⟩]] := by
  unfold create_responsive_search_ad
  rw [runTool_snd]
  unfold create_responsive_search_ad_try
  split
  · exact Or.inl rfl
  · split
    · exact Or.inl rfl
    · try dsimp only
      split
      · exact Or.inr rfl
      · split <;> exact Or.inr rfl

/-- The trace of `create_keyword` is empty or a single mutate call with the
one ad-group-criterion operation. -/
theorem create_keyword_trace_cases (env : Env) (customer_id : String)
    (ad_group_id : String) (text : String) (match_type : String)
    (cpc_bid_micros : Option Int) :
    (create_keyword env customer_id ad_group_id text match_type
        cpc_bid_micros).snd = [] ∨
    ∃ mtv,
      (create_keyword env customer_id ad_group_id text match_type
          cpc_bid_micros).snd =
        [VendorCall.mutateCall customer_id
          [MutateOperation.adGroupCriterionCreate
            ("customers/" ++ customer_id ++ "/adGroups/" ++ ad_group_id)
            "ENABLED" text mtv cpc_bid_micros]] := by
  unfold create_keyword
  rw [runTool_snd]
  unfold create_keyword_try
  split
  · exact Or.inl rfl
  · try dsimp only
    split
    · exact Or.inr ⟨_, rfl⟩
    · split <;> exact Or.inr ⟨_, rfl⟩

/-- The trace of `update_campaign` is empty, a lone budget search, a lone
mutate call, or a budget search followed by one mutate call — never more
than one mutate call. -/
theorem update_campaign_trace_shape (env : Env) (customer_id : String)
    (campaign_id : String) (status : Option String) (name : Option String)
    (budget_amount_micros : Option Int) :
    (update_campaign env customer_id campaign_id status name
        budget_amount_micros).snd = [] ∨
    (update_campaign env customer_id campaign_id status name
        budget_amount_micros).snd =
      [VendorCall.searchCall customer_id (budget_query campaign_id)] ∨
    (∃ ops, (update_campaign env customer_id campaign_id status name
        budget_amount_micros).snd =
      [VendorCall.mutateCall customer_id ops]) ∨
    (∃ ops, (update_campaign env customer_id campaign_id status name
        budget_amount_micros).snd =
      [VendorCall.searchCall customer_id (budget_query campaign_id),
       VendorCall.mutateCall customer_id ops]) := by
  unfold update_campaign
  rw [runTool_snd]
  unfold update_campaign_try
  repeat' first
    | split
    | dsimp only
  all_goals first
    | exact Or.inl rfl
    | exact Or.inr (Or.inl rfl)
    | exact Or.inr (Or.inr (Or.inl ⟨_, rfl⟩))
    | exact Or.inr (Or.inr (Or.inr ⟨_, rfl⟩))

/-- The result-dict keys that carry resource names of created or updated
entities. -/
def resourceNameKeys : List String :=
  ["campaign_resource_name", "budget_resource_name",
   "ad_group_resource_name", "ad_group_ad_resource_name",
   "ad_group_criterion_resource_name"]

/-- The uniform result-shape invariant: the dict has a boolean `success`
key; it has an `error` key exactly when `success` is `False`, and that key
holds a string; resource-name keys appear only when `success` is `True`. -/
def resultWellFormed (r : ToolResult) : Prop :=
  (∃ b, dictGet r "success" = some (Value.vBool b)) ∧
  ((∃ v, dictGet r "error" = some v) ↔
    dictGet r "success" = some (Value.vBool false)) ∧
  (∀ v, dictGet r "error" = some v → ∃ s, v = Value.vStr s) ∧
  (∀ k, k ∈ resourceNameKeys → (dictGet r k).isSome = true →
    dictGet r "success" = some (Value.vBool true))

/-- Every failure dict (`success = False` with a string `error`) satisfies
the result-shape invariant. -/
theorem resultWellFormed_err (s : String) :
    resultWellFormed
      [("success", Value.vBool false), ("error", Value.vStr s)] := by
  refine ⟨⟨false, rfl⟩, ⟨fun _ => rfl, fun _ => ⟨Value.vStr s, rfl⟩⟩, ?_, ?_⟩
  · intro v h
    simp [dictGet] at h
    exact ⟨s, h.symm⟩
  · intro k hk hsome
    simp only [resourceNameKeys, List.mem_cons, List.not_mem_nil,
      or_false] at hk
    rcases hk with rfl | rfl | rfl | rfl | rfl <;> simp [dictGet] at hsome

/-- `exceptionResult` always produces a failure dict. -/
theorem exceptionResult_shape (e : Exc) :
    ∃ s, exceptionResult e =
      [("success", Value.vBool false), ("error", Value.vStr s)] := by
  cases e <;> exact ⟨_, rfl⟩

/-- The success dict of `create_campaign` satisfies the result-shape
invariant. -/
theorem resultWellFormed_cc (x y z : String) :
    resultWellFormed
      [("success", Value.vBool true),
       ("campaign_resource_name", Value.vStr x),
       ("campaign_id", Value.vStr y),
       ("budget_resource_name", Value.vStr z)] := by
  refine ⟨⟨true, rfl⟩, ⟨?_, ?_⟩, ?_, fun k hk hsome => rfl⟩
  · rintro ⟨v, hv⟩
    simp [dictGet] at hv
  · intro h
    simp [dictGet] at h
  · intro v h
    simp [dictGet] at h

/-- The success dict of `create_ad_group` satisfies the result-shape
invariant. -/
theorem resultWellFormed_ag (x y : String) :
    resultWellFormed
      [("success", Value.vBool true),
       ("ad_group_resource_name", Value.vStr x),
       ("ad_group_id", Value.vStr y)] := by
  refine ⟨⟨true, rfl⟩, ⟨?_, ?_⟩, ?_, fun k hk hsome => rfl⟩
  · rintro ⟨v, hv⟩
    simp [dictGet] at hv
  · intro h
    simp [dictGet] at h
  · intro v h
    simp [dictGet] at h

/-- The success dict of `create_responsive_search_ad` satisfies the
result-shape invariant. -/
theorem resultWellFormed_rsa (x : String) :
    resultWellFormed
      [("success", Value.vBool true),
       ("ad_group_ad_resource_name", Value.vStr x)] := by
  refine ⟨⟨true, rfl⟩, ⟨?_, ?_⟩, ?_, fun k hk hsome => rfl⟩
  · rintro ⟨v, hv⟩
    simp [dictGet] at hv
  · intro h
    simp [dictGet] at h
  · intro v h
    simp [dictGet] at h

/-- The success dict of `create_keyword` satisfies the result-shape
invariant. -/
theorem resultWellFormed_kw (x : String) :
    resultWellFormed
      [("success", Value.vBool true),
       ("ad_group_criterion_resource_name", Value.vStr x)] := by
  refine ⟨⟨true, rfl⟩, ⟨?_, ?_⟩, ?_, fun k hk hsome => rfl⟩
  · rintro ⟨v, hv⟩
    simp [dictGet] at hv
  · intro h
    simp [dictGet] at h
  · intro v h
    simp [dictGet] at h

/-- The success dict of `update_campaign` satisfies the result-shape
invariant. -/
theorem resultWellFormed_upd (x : String) (b : Bool) :
    resultWellFormed
      [("success", Value.vBool true),
       ("campaign_resource_name", Value.vStr x),
       ("budget_updated", Value.vBool b)] := by
  refine ⟨⟨true, rfl⟩, ⟨?_, ?_⟩, ?_, fun k hk hsome => rfl⟩
  · rintro ⟨v, hv⟩
    simp [dictGet] at hv
  · intro h
    simp [dictGet] at h
  · intro v h
    simp [dictGet] at h

/-- When `runTool` wraps an `ok` body the dict is the body's. -/
theorem runTool_fst_ok (p : Except Exc ToolResult × Trace) (r : ToolResult)
    (h : p.fst = Except.ok r) : (runTool p).fst = r := by
  unfold runTool
  rw [h]

/-- When `runTool` wraps a raising body the dict is the exception dict. -/
theorem runTool_fst_error (p : Except Exc ToolResult × Trace) (e : Exc)
    (h : p.fst = Except.error e) : (runTool p).fst = exceptionResult e := by
  unfold runTool
  rw [h]

/-- Any dict the `try` body of `create_campaign` returns normally is its
success dict. -/
theorem create_campaign_ok_shapes (env : Env) (customer_id : String)
    (name : String) (budget_amount_micros : Int)
    (advertising_channel_type : String) (status : String)
    (budget_delivery_method : String) (r : ToolResult)
    (h : (create_campaign_try env customer_id name budget_amount_micros
        advertising_channel_type status budget_delivery_method).fst =
      Except.ok r) :
    ∃ x y z, r =
      [("success", Value.vBool true),
       ("campaign_resource_name", Value.vStr x),
       ("campaign_id", Value.vStr y),
       ("budget_resource_name", Value.vStr z)] := by
  unfold create_campaign_try at h
  repeat' first
    | split at h
    | dsimp only at h
  all_goals try simp_all
  all_goals exact ⟨_, _, _, h.symm⟩

/-- Any dict the `try` body of `create_ad_group` returns normally is its
success dict. -/
theorem create_ad_group_ok_shapes (env : Env) (customer_id : String)
    (campaign_id : String) (name : String) (cpc_bid_micros : Int)
    (status : String) (r : ToolResult)
    (h : (create_ad_group_try env customer_id campaign_id name
        cpc_bid_micros status).fst = Except.ok r) :
    ∃ x y, r =
      [("success", Value.vBool true),
       ("ad_group_resource_name", Value.vStr x),
       ("ad_group_id", Value.vStr y)] := by
  unfold create_ad_group_try at h
  repeat' first
    | split at h
    | dsimp only at h
  all_goals try simp_all
  all_goals exact ⟨_, _, h.symm⟩

/-- Any dict the `try` body of `create_responsive_search_ad` returns
normally is a validation failure dict or its success dict. -/
theorem create_responsive_search_ad_ok_shapes (env : Env)
    (customer_id : String) (ad_group_id : String) (headlines : List String)
    (descriptions : List String) (final_urls : List String)
    (path1 : Option String) (path2 : Option String) (r : ToolResult)
    (h : (create_responsive_search_ad_try env customer_id ad_group_id
        headlines descriptions final_urls path1 path2).fst = Except.ok r) :
    (∃ s, r = [("success", Value.vBool false), ("error", Value.vStr s)]) ∨
    ∃ x, r =
      [("success", Value.vBool true),
       ("ad_group_ad_resource_name", Value.vStr x)] := by
  unfold create_responsive_search_ad_try at h
  repeat' first
    | split at h
    | dsimp only at h
  all_goals try simp_all
  all_goals first
    | exact Or.inl ⟨_, h.symm⟩
    | exact Or.inr ⟨_, h.symm⟩

/-- Any dict the `try` body of `create_keyword` returns normally is its
success dict. -/
theorem create_keyword_ok_shapes (env : Env) (customer_id : String)
    (ad_group_id : String) (text : String) (match_type : String)
    (cpc_bid_micros : Option Int) (r : ToolResult)
    (h : (create_keyword_try env customer_id ad_group_id text match_type
        cpc_bid_micros).fst = Except.ok r) :
    ∃ x, r =
      [("success", Value.vBool true),
       ("ad_group_criterion_resource_name", Value.vStr x)] := by
  unfold create_keyword_try at h
  repeat' first
    | split at h
    | dsimp only at h
  all_goals try simp_all
  all_goals exact ⟨_, h.symm⟩

/-- Any dict the `try` body of `update_campaign` returns normally is a
validation failure dict or its success dict. -/
theorem update_campaign_ok_shapes (env : Env) (customer_id : String)
    (campaign_id : String) (status : Option String) (name : Option String)
    (budget_amount_micros : Option Int) (r : ToolResult)
    (h : (update_campaign_try env customer_id campaign_id status name
        budget_amount_micros).fst = Except.ok r) :
    (∃ s, r = [("success", Value.vBool false), ("error", Value.vStr s)]) ∨
    ∃ x b, r =
      [("success", Value.vBool true),
       ("campaign_resource_name", Value.vStr x),
       ("budget_updated", Value.vBool b)] := by
  unfold update_campaign_try at h
  repeat' first
    | split at h
    | dsimp only at h
  all_goals try simp_all
  all_goals first
    | exact Or.inl ⟨_, h.symm⟩
    | exact Or.inr ⟨_, _, h.symm⟩
    | exact Or.inr ⟨_, Or.inl h.symm⟩
    | exact Or.inr ⟨_, Or.inr h.symm⟩

/-- Test for a campaign-budget update operation. -/
def isBudgetUpdate : MutateOperation → Bool
  | MutateOperation.campaignBudgetUpdate _ _ _ => true
  | _ => false

/-- Whether some mutate request in a trace carries a campaign-budget update
operation. -/
def traceHasBudgetUpdate (t : Trace) : Bool :=
  t.any (fun c =>
    match c with
    | VendorCall.mutateCall _ ops => ops.any isBudgetUpdate
    | VendorCall.searchCall _ _ => false)

/-- When a budget amount is provided, `update_campaign`'s first vendor
request is always the budget search with the exact GAQL query. -/
theorem update_campaign_search_first (env : Env) (customer_id : String)
    (campaign_id : String) (status : Option String) (name : Option String)
    (amount : Int) :
    (update_campaign env customer_id campaign_id status name
        (some amount)).snd.head? =
      some (VendorCall.searchCall customer_id (budget_query campaign_id)) := by
  unfold update_campaign
  rw [runTool_snd]
  unfold update_campaign_try
  repeat' first
    | split
    | dsimp only
  all_goals first
    | rfl
    | simp_all

/-- On a normal return of `update_campaign`'s body with `success = True`,
the `budget_updated` field is present and equals whether the issued trace
contains a campaign-budget update operation. -/
theorem update_campaign_pairs (env : Env) (customer_id : String)
    (campaign_id : String) (status : Option String) (name : Option String)
    (ubg : Option Int) :
    (∃ s, (update_campaign_try env customer_id campaign_id status name
        ubg).fst = Except.ok
      [("success", Value.vBool false), ("error", Value.vStr s)]) ∨
    (∃ e, (update_campaign_try env customer_id campaign_id status name
        ubg).fst = Except.error e) ∨
    (∃ x, (update_campaign_try env customer_id campaign_id status name
        ubg).fst = Except.ok
      [("success", Value.vBool true),
       ("campaign_resource_name", Value.vStr x),
       ("budget_updated", Value.vBool
        (traceHasBudgetUpdate (update_campaign_try env customer_id
          campaign_id status name ubg).snd))]) := by
  unfold update_campaign_try
  repeat' first
    | split
    | dsimp only
  all_goals first
    | exact Or.inl ⟨_, rfl⟩
    | exact Or.inr (Or.inl ⟨_, rfl⟩)
    | exact Or.inr (Or.inr
        ⟨"customers/" ++ customer_id ++ "/campaigns/" ++ campaign_id,
         by simp [traceHasBudgetUpdate, isBudgetUpdate, List.any_append]⟩)

/-- On a normal return of `update_campaign`'s body with `success = True`,
the `budget_updated` field is present and equals whether the issued trace
contains a campaign-budget update operation. -/
theorem update_campaign_budget_flag (env : Env) (customer_id : String)
    (campaign_id : String) (status : Option String) (name : Option String)
    (ubg : Option Int) (r : ToolResult)
    (hf : (update_campaign_try env customer_id campaign_id status name
        ubg).fst = Except.ok r)
    (hsucc : dictGet r "success" = some (Value.vBool true)) :
    ∃ b, dictGet r "budget_updated" = some (Value.vBool b) ∧
      b = traceHasBudgetUpdate (update_campaign_try env customer_id
        campaign_id status name ubg).snd := by
  rcases update_campaign_pairs env customer_id campaign_id status name
      ubg with ⟨s, h⟩ | ⟨e, h⟩ | ⟨x, h⟩
  · rw [hf] at h
    obtain rfl : r = _ := Except.ok.inj h
    simp [dictGet] at hsucc
  · rw [hf] at h
    exact absurd h (by simp)
  · rw [hf] at h
    obtain rfl : r = _ := Except.ok.inj h
    exact ⟨_, by simp [dictGet], rfl⟩

/-! ### Claims -/

/-- C9: for every `GoogleAdsException` whose `failure.errors` list is
non-empty, `_extract_error_details` returns the strings
`"{error_code}: {message}"` for each error, in list order, joined by `"; "`;
when the list is empty it returns `str(ex)`. -/
theorem claim_C9 (ex : GoogleAdsException) :
    (ex.failure.errors ≠ [] →
      _extract_error_details ex =
        String.intercalate "; "
          (ex.failure.errors.map
            (fun error => error.error_code ++ ": " ++ error.message))) ∧
    (ex.failure.errors = [] → _extract_error_details ex = ex.str_val) := by
  constructor
  · intro h
    cases hl : ex.failure.errors with
    | nil => exact absurd hl h
    | cons a l => simp [_extract_error_details, hl]
  · intro h
    simp [_extract_error_details, h]

/-- Witness for C9 at concrete exceptions: two errors are joined in order,
and an empty failure falls back to the exception's string form. -/
theorem claim_C9_witness :
    ((⟨⟨[⟨"codeA", "msgA"⟩, ⟨"codeB", "msgB"⟩]⟩, "strA"⟩ :
        GoogleAdsException).failure.errors ≠ [] ∧
      _extract_error_details ⟨⟨[⟨"codeA", "msgA"⟩, ⟨"codeB", "msgB"⟩]⟩, "strA"⟩ =
        "codeA: msgA; codeB: msgB") ∧
    ((⟨⟨[]⟩, "strB"⟩ : GoogleAdsException).failure.errors = [] ∧
      _extract_error_details ⟨⟨[]⟩, "strB"⟩ = "strB") :=
  ⟨⟨by decide,
    (claim_C9 ⟨⟨[⟨"codeA", "msgA"⟩, ⟨"codeB", "msgB"⟩]⟩, "strA"⟩).1 (by decide)⟩,
   ⟨rfl, (claim_C9 ⟨⟨[]⟩, "strB"⟩).2 rfl⟩⟩

/-- C4: when `status`, `name` and `budget_amount_micros` are all absent,
`update_campaign` returns the fixed validation failure dict and issues no
vendor query or mutation (its trace is empty). -/
theorem claim_C4 (env : Env) (customer_id : String) (campaign_id : String) :
    update_campaign env customer_id campaign_id none none none =
      ([("success", Value.vBool false),
        ("error", Value.vStr "At least one field to update must be provided (status, name, or budget_amount_micros)")],
       []) := rfl

/-- C3: with fewer than 3 headlines, `create_responsive_search_ad` returns
the headline validation failure dict; with at least 3 headlines but fewer
than 2 descriptions, it returns the description validation failure dict; in
both cases the trace is empty, so no vendor request is constructed or
submitted. -/
theorem claim_C3 (env : Env) (customer_id : String) (ad_group_id : String)
    (headlines : List String) (descriptions : List String)
    (final_urls : List String) (path1 : Option String) (path2 : Option String) :
    (headlines.length < 3 →
      create_responsive_search_ad env customer_id ad_group_id headlines
          descriptions final_urls path1 path2 =
        ([("success", Value.vBool false),
          ("error", Value.vStr "At least 3 headlines are required for a responsive search ad")],
         [])) ∧
    (3 ≤ headlines.length → descriptions.length < 2 →
      create_responsive_search_ad env customer_id ad_group_id headlines
          descriptions final_urls path1 path2 =
        ([("success", Value.vBool false),
          ("error", Value.vStr "At least 2 descriptions are required for a responsive search ad")],
         [])) := by
  constructor
  · intro h
    simp [create_responsive_search_ad, create_responsive_search_ad_try,
      runTool, h]
  · intro h1 h2
    have h3 : ¬ headlines.length < 3 := not_lt.mpr h1
    simp [create_responsive_search_ad, create_responsive_search_ad_try,
      runTool, h2, h3]

/-- Witness for C3 at concrete inputs: two headlines are rejected with the
headline message, and three headlines with one description are rejected with
the description message. -/
theorem claim_C3_witness :
    ((["h1", "h2"] : List String).length < 3 ∧
      create_responsive_search_ad envOk "1" "33" ["h1", "h2"] ["d1", "d2"]
          ["https://x.example"] none none =
        ([("success", Value.vBool false),
          ("error", Value.vStr "At least 3 headlines are required for a responsive search ad")],
         [])) ∧
    (3 ≤ (["h1", "h2", "h3"] : List String).length ∧
      (["d1"] : List String).length < 2 ∧
      create_responsive_search_ad envOk "1" "33" ["h1", "h2", "h3"] ["d1"]
          ["https://x.example"] none none =
        ([("success", Value.vBool false),
          ("error", Value.vStr "At least 2 descriptions are required for a responsive search ad")],
         [])) :=
  ⟨⟨by decide,
    (claim_C3 envOk "1" "33" ["h1", "h2"] ["d1", "d2"] ["https://x.example"]
        none none).1 (by decide)⟩,
   ⟨by decide, by decide,
    (claim_C3 envOk "1" "33" ["h1", "h2", "h3"] ["d1"] ["https://x.example"]
        none none).2 (by decide) (by decide)⟩⟩

/-- C2: every tool maps a `GoogleAdsException` raised during its body to the
dict with `success = False` and `error = _extract_error_details(ex)`, and any
other exception to the dict with `success = False` and `error = str(ex)`;
no exception propagates (each tool totally returns a dict). -/
theorem claim_C2 (env : Env)
    (customer_id : String) (name : String) (campaign_id : String)
    (ad_group_id : String) (text : String) (match_type : String)
    (budget_amount_micros : Int) (cpc_bid_micros : Int)
    (advertising_channel_type : String) (status : String)
    (budget_delivery_method : String) (ag_status : String)
    (headlines : List String) (descriptions : List String)
    (final_urls : List String) (path1 : Option String) (path2 : Option String)
    (upd_status : Option String) (upd_name : Option String)
    (upd_budget : Option Int) (kw_bid : Option Int) :
    excHandled
      (create_campaign_try env customer_id name budget_amount_micros
        advertising_channel_type status budget_delivery_method)
      (create_campaign env customer_id name budget_amount_micros
        advertising_channel_type status budget_delivery_method) ∧
    excHandled
      (create_ad_group_try env customer_id campaign_id name cpc_bid_micros
        ag_status)
      (create_ad_group env customer_id campaign_id name cpc_bid_micros
        ag_status) ∧
    excHandled
      (create_responsive_search_ad_try env customer_id ad_group_id headlines
        descriptions final_urls path1 path2)
      (create_responsive_search_ad env customer_id ad_group_id headlines
        descriptions final_urls path1 path2) ∧
    excHandled
      (create_keyword_try env customer_id ad_group_id text match_type kw_bid)
      (create_keyword env customer_id ad_group_id text match_type kw_bid) ∧
    excHandled
      (update_campaign_try env customer_id campaign_id upd_status upd_name
        upd_budget)
      (update_campaign env customer_id campaign_id upd_status upd_name
        upd_budget) :=
  ⟨runTool_excHandled _, runTool_excHandled _, runTool_excHandled _,
   runTool_excHandled _, runTool_excHandled _⟩

/-- Witness for C2: with a client raising `sampleAdsException`, each of the
five tools returns the flattened error dict, and with a client raising a
plain exception, each returns its stringified dict. -/
theorem claim_C2_witness :
    (create_campaign envAds "1" "camp" 5000000 "SEARCH" "PAUSED" "STANDARD").fst =
      [("success", Value.vBool false),
       ("error", Value.vStr "AuthorizationError.USER_PERMISSION_DENIED: User does not have permission")] ∧
    (create_ad_group envAds "1" "22" "ag" 1000000 "ENABLED").fst =
      [("success", Value.vBool false),
       ("error", Value.vStr "AuthorizationError.USER_PERMISSION_DENIED: User does not have permission")] ∧
    (create_responsive_search_ad envAds "1" "33" ["h1", "h2", "h3"]
        ["d1", "d2"] ["https://x.example"] none none).fst =
      [("success", Value.vBool false),
       ("error", Value.vStr "AuthorizationError.USER_PERMISSION_DENIED: User does not have permission")] ∧
    (create_keyword envAds "1" "33" "shoes" "BROAD" none).fst =
      [("success", Value.vBool false),
       ("error", Value.vStr "AuthorizationError.USER_PERMISSION_DENIED: User does not have permission")] ∧
    (update_campaign envAds "1" "22" (some "PAUSED") none none).fst =
      [("success", Value.vBool false),
       ("error", Value.vStr "AuthorizationError.USER_PERMISSION_DENIED: User does not have permission")] ∧
    (create_campaign envOther "1" "camp" 5000000 "SEARCH" "PAUSED" "STANDARD").fst =
      [("success", Value.vBool false), ("error", Value.vStr "connection reset")] ∧
    (create_ad_group envOther "1" "22" "ag" 1000000 "ENABLED").fst =
      [("success", Value.vBool false), ("error", Value.vStr "connection reset")] ∧
    (create_responsive_search_ad envOther "1" "33" ["h1", "h2", "h3"]
        ["d1", "d2"] ["https://x.example"] none none).fst =
      [("success", Value.vBool false), ("error", Value.vStr "connection reset")] ∧
    (create_keyword envOther "1" "33" "shoes" "BROAD" none).fst =
      [("success", Value.vBool false), ("error", Value.vStr "connection reset")] ∧
    (update_campaign envOther "1" "22" (some "PAUSED") none none).fst =
      [("success", Value.vBool false), ("error", Value.vStr "connection reset")] :=
  ⟨(claim_C2 envAds "1" "camp" "22" "33" "shoes" "BROAD" 5000000 1000000
      "SEARCH" "PAUSED" "STANDARD" "ENABLED" ["h1", "h2", "h3"] ["d1", "d2"]
      ["https://x.example"] none none (some "PAUSED") none none none).1.1
      sampleAdsException rfl,
   (claim_C2 envAds "1" "camp" "22" "33" "shoes" "BROAD" 5000000 1000000
      "SEARCH" "PAUSED" "STANDARD" "ENABLED" ["h1", "h2", "h3"] ["d1", "d2"]
      ["https://x.example"] none none (some "PAUSED") none none
      none).2.1.1 sampleAdsException rfl,
   (claim_C2 envAds "1" "camp" "22" "33" "shoes" "BROAD" 5000000 1000000
      "SEARCH" "PAUSED" "STANDARD" "ENABLED" ["h1", "h2", "h3"] ["d1", "d2"]
      ["https://x.example"] none none (some "PAUSED") none none
      none).2.2.1.1 sampleAdsException rfl,
   (claim_C2 envAds "1" "camp" "22" "33" "shoes" "BROAD" 5000000 1000000
      "SEARCH" "PAUSED" "STANDARD" "ENABLED" ["h1", "h2", "h3"] ["d1", "d2"]
      ["https://x.example"] none none (some "PAUSED") none none
      none).2.2.2.1.1 sampleAdsException rfl,
   (claim_C2 envAds "1" "camp" "22" "33" "shoes" "BROAD" 5000000 1000000
      "SEARCH" "PAUSED" "STANDARD" "ENABLED" ["h1", "h2", "h3"] ["d1", "d2"]
      ["https://x.example"] none none (some "PAUSED") none none
      none).2.2.2.2.1 sampleAdsException rfl,
   (claim_C2 envOther "1" "camp" "22" "33" "shoes" "BROAD" 5000000 1000000
      "SEARCH" "PAUSED" "STANDARD" "ENABLED" ["h1", "h2", "h3"] ["d1", "d2"]
      ["https://x.example"] none none (some "PAUSED") none none none).1.2
      "connection reset" rfl,
   (claim_C2 envOther "1" "camp" "22" "33" "shoes" "BROAD" 5000000 1000000
      "SEARCH" "PAUSED" "STANDARD" "ENABLED" ["h1", "h2", "h3"] ["d1", "d2"]
      ["https://x.example"] none none (some "PAUSED") none none
      none).2.1.2 "connection reset" rfl,
   (claim_C2 envOther "1" "camp" "22" "33" "shoes" "BROAD" 5000000 1000000
      "SEARCH" "PAUSED" "STANDARD" "ENABLED" ["h1", "h2", "h3"] ["d1", "d2"]
      ["https://x.example"] none none (some "PAUSED") none none
      none).2.2.1.2 "connection reset" rfl,
   (claim_C2 envOther "1" "camp" "22" "33" "shoes" "BROAD" 5000000 1000000
      "SEARCH" "PAUSED" "STANDARD" "ENABLED" ["h1", "h2", "h3"] ["d1", "d2"]
      ["https://x.example"] none none (some "PAUSED") none none
      none).2.2.2.1.2 "connection reset" rfl,
   (claim_C2 envOther "1" "camp" "22" "33" "shoes" "BROAD" 5000000 1000000
      "SEARCH" "PAUSED" "STANDARD" "ENABLED" ["h1", "h2", "h3"] ["d1", "d2"]
      ["https://x.example"] none none (some "PAUSED") none none
      none).2.2.2.2.2 "connection reset" rfl⟩

/-- C8: once the two list-length checks pass, `create_responsive_search_ad`
always constructs and submits exactly one ad-group-ad operation — for every
client behaviour and every remaining property of the inputs (no per-item
character limits, list maximums, URL shape, or path1/path2 relationship is
checked locally): the ad carries the headlines and descriptions in their
given input order, and each path field is set exactly when its argument is
truthy, independently of the other. -/
theorem claim_C8 (env : Env) (customer_id : String) (ad_group_id : String)
    (headlines : List String) (descriptions : List String)
    (final_urls : List String) (path1 : Option String)
    (path2 : Option String) :
    3 ≤ headlines.length → 2 ≤ descriptions.length →
    ∃ r, create_responsive_search_ad env customer_id ad_group_id headlines
        descriptions final_urls path1 path2 =
      (r, [VendorCall.mutateCall customer_id
            [MutateOperation.adGroupAdCreate
              ("customers/" ++ customer_id ++ "/adGroups/" ++ ad_group_id)
              "ENABLED"
              ⟨final_urls, headlines, descriptions,
               (if optTruthy path1 then path1 else none),
               (if optTruthy path2 then path2 else none)⟩]]) := by
  intro h1 h2
  have h3 : ¬ headlines.length < 3 := not_lt.mpr h1
  have h4 : ¬ descriptions.length < 2 := not_lt.mpr h2
  have hsnd : (create_responsive_search_ad env customer_id ad_group_id
      headlines descriptions final_urls path1 path2).snd =
      [VendorCall.mutateCall customer_id
        [MutateOperation.adGroupAdCreate
          ("customers/" ++ customer_id ++ "/adGroups/" ++ ad_group_id)
          "ENABLED"
          ⟨final_urls, headlines, descriptions,
           (if optTruthy path1 then path1 else none),
           (if optTruthy path2 then path2 else none)⟩]] := by
    unfold create_responsive_search_ad
    rw [runTool_snd]
    simp only [create_responsive_search_ad_try, if_neg h3, if_neg h4]
    split
    · rfl
    · split <;> rfl
  exact ⟨(create_responsive_search_ad env customer_id ad_group_id headlines
      descriptions final_urls path1 path2).fst, by rw [← hsnd]⟩

/-- Witness for C8: with valid list lengths, `path1 = none` and a truthy
`path2`, the submitted ad sets `path2` while `path1` stays unset, and the
texts appear in input order. -/
theorem claim_C8_witness :
    3 ≤ (["h1", "h2", "h3"] : List String).length ∧
    2 ≤ (["d1", "d2"] : List String).length ∧
    ∃ r, create_responsive_search_ad envOk "1" "33" ["h1", "h2", "h3"]
        ["d1", "d2"] ["https://x.example"] none (some "deals") =
      (r, [VendorCall.mutateCall "1"
            [MutateOperation.adGroupAdCreate "customers/1/adGroups/33"
              "ENABLED"
              ⟨["https://x.example"], ["h1", "h2", "h3"], ["d1", "d2"],
               none, some "deals"⟩]]) :=
  ⟨by decide, by decide, by
    have h := claim_C8 envOk "1" "33" ["h1", "h2", "h3"] ["d1", "d2"]
      ["https://x.example"] none (some "deals") (by decide) (by decide)
    simpa [optTruthy] using h⟩

/-- C5: every mutate request `create_campaign` submits holds exactly two
operations, in the order budget-create then campaign-create; the budget
uses the temporary resource name `customers/{customer_id}/campaignBudgets`
slash `-1`, is named `{name} Budget`, carries `budget_amount_micros` and
`explicitly_shared = false`; and the campaign's `campaign_budget` field is
that same temporary resource name. -/
theorem claim_C5 (env : Env) (customer_id : String) (name : String)
    (budget_amount_micros : Int) (advertising_channel_type : String)
    (status : String) (budget_delivery_method : String) :
    ∀ cid2 ops,
      VendorCall.mutateCall cid2 ops ∈
        (create_campaign env customer_id name budget_amount_micros
          advertising_channel_type status budget_delivery_method).snd →
      cid2 = customer_id ∧
      ∃ dmv chv stv, ops =
        [MutateOperation.campaignBudgetCreate
          ("customers/" ++ customer_id ++ "/campaignBudgets/-1")
          (name ++ " Budget") budget_amount_micros dmv false,
         MutateOperation.campaignCreate name chv stv
          ("customers/" ++ customer_id ++ "/campaignBudgets/-1")
          (if advertising_channel_type = "SEARCH" then
            some ⟨true, true, false, false⟩
           else none)] := by
  intro cid2 ops hmem
  rcases create_campaign_trace_cases env customer_id name
      budget_amount_micros advertising_channel_type status
      budget_delivery_method with h | ⟨dmv, chv, stv, h⟩
  · rw [h] at hmem
    simp at hmem
  · rw [h] at hmem
    simp only [List.mem_singleton, VendorCall.mutateCall.injEq] at hmem
    exact ⟨hmem.1, dmv, chv, stv, hmem.2⟩

/-- Witness for C5: with a concrete client, the submitted operation pair
has the stated shape (budget first, linked by the temporary resource
name). -/
theorem claim_C5_witness :
    VendorCall.mutateCall "1"
      [MutateOperation.campaignBudgetCreate "customers/1/campaignBudgets/-1"
        "camp Budget" 5000000 "STANDARD" false,
       MutateOperation.campaignCreate "camp" "SEARCH" "PAUSED"
        "customers/1/campaignBudgets/-1" (some ⟨true, true, false, false⟩)] ∈
      (create_campaign envOk "1" "camp" 5000000 "SEARCH" "PAUSED"
        "STANDARD").snd ∧
    ("1" = "1" ∧
     ∃ dmv chv stv,
      ([MutateOperation.campaignBudgetCreate "customers/1/campaignBudgets/-1"
          "camp Budget" 5000000 "STANDARD" false,
        MutateOperation.campaignCreate "camp" "SEARCH" "PAUSED"
          "customers/1/campaignBudgets/-1"
          (some ⟨true, true, false, false⟩)] : List MutateOperation) =
        [MutateOperation.campaignBudgetCreate
          ("customers/" ++ "1" ++ "/campaignBudgets/-1")
          ("camp" ++ " Budget") 5000000 dmv false,
         MutateOperation.campaignCreate "camp" chv stv
          ("customers/" ++ "1" ++ "/campaignBudgets/-1")
          (if ("SEARCH" : String) = "SEARCH" then
            some ⟨true, true, false, false⟩
           else none)]) :=
  ⟨by decide,
   claim_C5 envOk "1" "camp" 5000000 "SEARCH" "PAUSED" "STANDARD" "1"
     [MutateOperation.campaignBudgetCreate "customers/1/campaignBudgets/-1"
        "camp Budget" 5000000 "STANDARD" false,
      MutateOperation.campaignCreate "camp" "SEARCH" "PAUSED"
        "customers/1/campaignBudgets/-1" (some ⟨true, true, false, false⟩)]
     (by decide)⟩

/-- C10: in every mutate request `update_campaign` submits, a
campaign-budget update operation always carries the field mask
`["amount_micros"]`, and a campaign update operation carries exactly the
mask naming the provided fields — `["status"]`, `["name"]`, or
`["status", "name"]` in that order — with its `status` field set exactly
when the caller provided one and its `name` field equal to the caller's
`name` argument (fields not named are not requested to change). -/
theorem claim_C10 (env : Env) (customer_id : String) (campaign_id : String)
    (status : Option String) (name : Option String)
    (budget_amount_micros : Option Int) :
    ∀ cid2 ops,
      VendorCall.mutateCall cid2 ops ∈
        (update_campaign env customer_id campaign_id status name
          budget_amount_micros).snd →
      ∀ op ∈ ops,
        (∀ rn a m, op = MutateOperation.campaignBudgetUpdate rn a m →
          m = ["amount_micros"]) ∧
        (∀ rn sv nv m, op = MutateOperation.campaignUpdate rn sv nv m →
          m = (if status.isSome then ["status"] else [])
              ++ (if name.isSome then ["name"] else []) ∧
          sv.isSome = status.isSome ∧ nv = name) := by
  intro cid2 ops hmem op hop
  unfold update_campaign at hmem
  rw [runTool_snd] at hmem
  unfold update_campaign_try at hmem
  repeat' first
    | split at hmem
    | dsimp only at hmem
  all_goals try simp_all
  all_goals try (rcases hop with hop | hop <;> simp_all)
  all_goals intros
  all_goals subst_vars
  all_goals simp

/-- Witness for C10: for a concrete invocation providing all three fields,
the submitted budget operation's mask is `["amount_micros"]` and the
campaign operation's mask is `["status", "name"]`. -/
theorem claim_C10_witness :
    (∀ rn a m,
      MutateOperation.campaignBudgetUpdate "customers/1/campaignBudgets/11"
          75 ["amount_micros"] =
        MutateOperation.campaignBudgetUpdate rn a m → m = ["amount_micros"]) ∧
    (∀ rn sv nv m,
      MutateOperation.campaignBudgetUpdate "customers/1/campaignBudgets/11"
          75 ["amount_micros"] =
        MutateOperation.campaignUpdate rn sv nv m →
      m = (if (some "ENABLED" : Option String).isSome then ["status"] else [])
          ++ (if (some "new" : Option String).isSome then ["name"] else []) ∧
      sv.isSome = (some "ENABLED" : Option String).isSome ∧
      nv = some "new") :=
  claim_C10 envOk "1" "22" (some "ENABLED") (some "new") (some 75) "1"
    [MutateOperation.campaignBudgetUpdate "customers/1/campaignBudgets/11"
      75 ["amount_micros"],
     MutateOperation.campaignUpdate "customers/1/campaigns/22"
      (some "ENABLED") (some "new") ["status", "name"]]
    (by decide)
    (MutateOperation.campaignBudgetUpdate "customers/1/campaignBudgets/11"
      75 ["amount_micros"])
    (by decide)

/-- C1: every invocation of every tool issues at most one call to the
vendor mutate operation, so operations are never split across mutate calls;
`create_campaign` submits its budget operation and campaign operation
together in one mutate call, and `update_campaign` (when a budget update
and campaign field updates are both in play) submits its budget-update and
campaign-update operations together in one mutate call. -/
theorem claim_C1 (env : Env) (customer_id : String) (name : String)
    (campaign_id : String) (ad_group_id : String) (text : String)
    (match_type : String) (budget_amount_micros : Int)
    (cpc_bid_micros : Int) (advertising_channel_type : String)
    (status : String) (budget_delivery_method : String) (ag_status : String)
    (headlines : List String) (descriptions : List String)
    (final_urls : List String) (path1 : Option String)
    (path2 : Option String) (upd_status : Option String)
    (upd_name : Option String) (upd_budget : Option Int)
    (kw_bid : Option Int) :
    (mutateCallsOf (create_campaign env customer_id name
        budget_amount_micros advertising_channel_type status
        budget_delivery_method).snd).length ≤ 1 ∧
    (mutateCallsOf (create_ad_group env customer_id campaign_id name
        cpc_bid_micros ag_status).snd).length ≤ 1 ∧
    (mutateCallsOf (create_responsive_search_ad env customer_id ad_group_id
        headlines descriptions final_urls path1 path2).snd).length ≤ 1 ∧
    (mutateCallsOf (create_keyword env customer_id ad_group_id text
        match_type kw_bid).snd).length ≤ 1 ∧
    (mutateCallsOf (update_campaign env customer_id campaign_id upd_status
        upd_name upd_budget).snd).length ≤ 1 ∧
    (∀ cid2 ops,
      VendorCall.mutateCall cid2 ops ∈
        (create_campaign env customer_id name budget_amount_micros
          advertising_channel_type status budget_delivery_method).snd →
      ∃ dmv chv stv, ops =
        [MutateOperation.campaignBudgetCreate
          ("customers/" ++ customer_id ++ "/campaignBudgets/-1")
          (name ++ " Budget") budget_amount_micros dmv false,
         MutateOperation.campaignCreate name chv stv
          ("customers/" ++ customer_id ++ "/campaignBudgets/-1")
          (if advertising_channel_type = "SEARCH" then
            some ⟨true, true, false, false⟩
           else none)]) ∧
    (∀ s sv batches rn a,
      env.enum_attr "CampaignStatus" s = Except.ok sv →
      env.search_stream customer_id (budget_query campaign_id) =
        Except.ok batches →
      firstRowBudget batches = some rn → rn ≠ "" →
      (update_campaign env customer_id campaign_id (some s) upd_name
          (some a)).snd =
        [VendorCall.searchCall customer_id (budget_query campaign_id),
         VendorCall.mutateCall customer_id
          [MutateOperation.campaignBudgetUpdate rn a ["amount_micros"],
           MutateOperation.campaignUpdate
            ("customers/" ++ customer_id ++ "/campaigns/" ++ campaign_id)
            (some sv) upd_name
            (["status"] ++ (if upd_name.isSome then ["name"] else []))]]) := by
  refine ⟨?_, ?_, ?_, ?_, ?_, ?_, ?_⟩
  · rcases create_campaign_trace_cases env customer_id name
        budget_amount_micros advertising_channel_type status
        budget_delivery_method with h | ⟨dmv, chv, stv, h⟩ <;>
      simp [h, mutateCallsOf, isMutate]
  · rcases create_ad_group_trace_cases env customer_id campaign_id name
        cpc_bid_micros ag_status with h | ⟨stv, h⟩ <;>
      simp [h, mutateCallsOf, isMutate]
  · rcases create_responsive_search_ad_trace_cases env customer_id
        ad_group_id headlines descriptions final_urls path1 path2 with
        h | h <;>
      simp [h, mutateCallsOf, isMutate]
  · rcases create_keyword_trace_cases env customer_id ad_group_id text
        match_type kw_bid with h | ⟨mtv, h⟩ <;>
      simp [h, mutateCallsOf, isMutate]
  · rcases update_campaign_trace_shape env customer_id campaign_id
        upd_status upd_name upd_budget with h | h | ⟨ops, h⟩ | ⟨ops, h⟩ <;>
      simp [h, mutateCallsOf, isMutate]
  · intro cid2 ops hmem
    rcases create_campaign_trace_cases env customer_id name
        budget_amount_micros advertising_channel_type status
        budget_delivery_method with h | ⟨dmv, chv, stv, h⟩
    · rw [h] at hmem
      simp at hmem
    · rw [h] at hmem
      simp only [List.mem_singleton, VendorCall.mutateCall.injEq] at hmem
      exact ⟨dmv, chv, stv, hmem.2⟩
  · intro s sv batches rn a henum hsearch hfirst hne
    unfold update_campaign
    rw [runTool_snd]
    unfold update_campaign_try
    have hbeq : (rn == "") = false := by
      simp [hne]
    simp only [henum, hsearch, hfirst, hbeq, optTruthy, Option.isNone_some,
      Option.isSome_some, Bool.false_and, Bool.not_false, Bool.true_or,
      if_true, if_false, Bool.false_eq_true, ite_false]
    repeat' split
    all_goals first
      | rfl
      | simp_all

/-- Witness for C1 (its last conjunct carries the hypotheses): with a
concrete client the update trace is one search followed by one mutate call
holding both update operations. -/
theorem claim_C1_witness :
    (update_campaign envOk "1" "22" (some "ENABLED") (some "new")
        (some 75)).snd =
      [VendorCall.searchCall "1" (budget_query "22"),
       VendorCall.mutateCall "1"
        [MutateOperation.campaignBudgetUpdate "customers/1/campaignBudgets/11"
          75 ["amount_micros"],
         MutateOperation.campaignUpdate "customers/1/campaigns/22"
          (some "ENABLED") (some "new") (["status"] ++ ["name"])]] :=
  (claim_C1 envOk "1" "camp" "22" "33" "shoes" "BROAD" 5000000 1000000
      "SEARCH" "PAUSED" "STANDARD" "ENABLED" ["h1", "h2", "h3"] ["d1", "d2"]
      ["https://x.example"] none none (some "ENABLED") (some "new") (some 75)
      none).2.2.2.2.2.2 "ENABLED" "ENABLED"
    [⟨[⟨"customers/1/campaignBudgets/11"⟩]⟩] "customers/1/campaignBudgets/11"
    75 rfl rfl rfl (by decide)

/-- C7: every tool, on every input and every behaviour of the vendor
client, returns a dict with a boolean `success` key, containing a string
`error` key exactly when `success` is `False`, and containing
resource-name result keys only when `success` is `True`. -/
theorem claim_C7 (env : Env) (customer_id : String) (name : String)
    (campaign_id : String) (ad_group_id : String) (text : String)
    (match_type : String) (budget_amount_micros : Int)
    (cpc_bid_micros : Int) (advertising_channel_type : String)
    (status : String) (budget_delivery_method : String) (ag_status : String)
    (headlines : List String) (descriptions : List String)
    (final_urls : List String) (path1 : Option String)
    (path2 : Option String) (upd_status : Option String)
    (upd_name : Option String) (upd_budget : Option Int)
    (kw_bid : Option Int) :
    resultWellFormed (create_campaign env customer_id name
      budget_amount_micros advertising_channel_type status
      budget_delivery_method).fst ∧
    resultWellFormed (create_ad_group env customer_id campaign_id name
      cpc_bid_micros ag_status).fst ∧
    resultWellFormed (create_responsive_search_ad env customer_id
      ad_group_id headlines descriptions final_urls path1 path2).fst ∧
    resultWellFormed (create_keyword env customer_id ad_group_id text
      match_type kw_bid).fst ∧
    resultWellFormed (update_campaign env customer_id campaign_id
      upd_status upd_name upd_budget).fst := by
  refine ⟨?_, ?_, ?_, ?_, ?_⟩
  · unfold create_campaign
    cases h : (create_campaign_try env customer_id name
        budget_amount_micros advertising_channel_type status
        budget_delivery_method).fst with
    | error e =>
      rw [runTool_fst_error _ _ h]
      rcases exceptionResult_shape e with ⟨s, hs⟩
      rw [hs]
      exact resultWellFormed_err s
    | ok r =>
      rw [runTool_fst_ok _ _ h]
      rcases create_campaign_ok_shapes env customer_id name
          budget_amount_micros advertising_channel_type status
          budget_delivery_method r h with ⟨x, y, z, rfl⟩
      exact resultWellFormed_cc x y z
  · unfold create_ad_group
    cases h : (create_ad_group_try env customer_id campaign_id name
        cpc_bid_micros ag_status).fst with
    | error e =>
      rw [runTool_fst_error _ _ h]
      rcases exceptionResult_shape e with ⟨s, hs⟩
      rw [hs]
      exact resultWellFormed_err s
    | ok r =>
      rw [runTool_fst_ok _ _ h]
      rcases create_ad_group_ok_shapes env customer_id campaign_id name
          cpc_bid_micros ag_status r h with ⟨x, y, rfl⟩
      exact resultWellFormed_ag x y
  · unfold create_responsive_search_ad
    cases h : (create_responsive_search_ad_try env customer_id ad_group_id
        headlines descriptions final_urls path1 path2).fst with
    | error e =>
      rw [runTool_fst_error _ _ h]
      rcases exceptionResult_shape e with ⟨s, hs⟩
      rw [hs]
      exact resultWellFormed_err s
    | ok r =>
      rw [runTool_fst_ok _ _ h]
      rcases create_responsive_search_ad_ok_shapes env customer_id
          ad_group_id headlines descriptions final_urls path1 path2 r h with
          ⟨s, rfl⟩ | ⟨x, rfl⟩
      · exact resultWellFormed_err s
      · exact resultWellFormed_rsa x
  · unfold create_keyword
    cases h : (create_keyword_try env customer_id ad_group_id text
        match_type kw_bid).fst with
    | error e =>
      rw [runTool_fst_error _ _ h]
      rcases exceptionResult_shape e with ⟨s, hs⟩
      rw [hs]
      exact resultWellFormed_err s
    | ok r =>
      rw [runTool_fst_ok _ _ h]
      rcases create_keyword_ok_shapes env customer_id ad_group_id text
          match_type kw_bid r h with ⟨x, rfl⟩
      exact resultWellFormed_kw x
  · unfold update_campaign
    cases h : (update_campaign_try env customer_id campaign_id upd_status
        upd_name upd_budget).fst with
    | error e =>
      rw [runTool_fst_error _ _ h]
      rcases exceptionResult_shape e with ⟨s, hs⟩
      rw [hs]
      exact resultWellFormed_err s
    | ok r =>
      rw [runTool_fst_ok _ _ h]
      rcases update_campaign_ok_shapes env customer_id campaign_id
          upd_status upd_name upd_budget r h with ⟨s, rfl⟩ | ⟨x, b, rfl⟩
      · exact resultWellFormed_err s
      · exact resultWellFormed_upd x b

/-- Witness for C7: at a concrete successful invocation the invariant's
resource-name clause yields `success = True` from the presence of
`campaign_resource_name`. -/
theorem claim_C7_witness :
    dictGet (update_campaign envOk "1" "22" (some "ENABLED") none
        none).fst "success" = some (Value.vBool true) :=
  ((claim_C7 envOk "1" "camp" "22" "33" "shoes" "BROAD" 5000000 1000000
      "SEARCH" "PAUSED" "STANDARD" "ENABLED" ["h1", "h2", "h3"] ["d1", "d2"]
      ["https://x.example"] none none (some "ENABLED") none none
      none).2.2.2.2).2.2.2 "campaign_resource_name" (by decide) (by decide)

/-- C6: when `budget_amount_micros` is provided, `update_campaign` first
issues the budget search (query-then-mutate); when the search succeeds, a
budget-update operation targeting the found resource with mask
`["amount_micros"]` leads every submitted operation list exactly when the
found budget resource name is truthy, and no budget-update operation is
submitted otherwise; on a successful return `budget_updated` equals whether
such an operation was included; and when the budget search finds nothing
truthy while `status` and `name` are both absent the tool fails with
`"No valid updates to perform"` having issued only the search. -/
theorem claim_C6 (env : Env) (customer_id : String) (campaign_id : String)
    (status : Option String) (name : Option String) (amount : Int)
    (batches : List SearchBatch) (ubg : Option Int) :
    ((update_campaign env customer_id campaign_id status name
        (some amount)).snd.head? =
      some (VendorCall.searchCall customer_id
        (budget_query campaign_id))) ∧
    (env.search_stream customer_id (budget_query campaign_id) =
        Except.ok batches →
      ∀ rn, firstRowBudget batches = some rn → rn ≠ "" →
      ∀ cid2 ops,
        VendorCall.mutateCall cid2 ops ∈
          (update_campaign env customer_id campaign_id status name
            (some amount)).snd →
        ops.head? = some (MutateOperation.campaignBudgetUpdate rn amount
          ["amount_micros"])) ∧
    (env.search_stream customer_id (budget_query campaign_id) =
        Except.ok batches →
      optTruthy (firstRowBudget batches) = false →
      ∀ cid2 ops,
        VendorCall.mutateCall cid2 ops ∈
          (update_campaign env customer_id campaign_id status name
            (some amount)).snd →
        ∀ op ∈ ops, isBudgetUpdate op = false) ∧
    (dictGet (update_campaign env customer_id campaign_id status name
        ubg).fst "success" = some (Value.vBool true) →
      ∃ b, dictGet (update_campaign env customer_id campaign_id status name
          ubg).fst "budget_updated" = some (Value.vBool b) ∧
        b = traceHasBudgetUpdate (update_campaign env customer_id
          campaign_id status name ubg).snd) ∧
    (env.search_stream customer_id (budget_query campaign_id) =
        Except.ok batches →
      optTruthy (firstRowBudget batches) = false →
      update_campaign env customer_id campaign_id none none (some amount) =
        ([("success", Value.vBool false),
          ("error", Value.vStr "No valid updates to perform")],
         [VendorCall.searchCall customer_id (budget_query campaign_id)])) := by
  refine ⟨update_campaign_search_first env customer_id campaign_id status
    name amount, ?_, ?_, ?_, ?_⟩
  · intro hsearch rn hfirst hne cid2 ops hmem
    have hbeq : (rn == "") = false := by simp [hne]
    unfold update_campaign at hmem
    rw [runTool_snd] at hmem
    unfold update_campaign_try at hmem
    repeat' first
      | split at hmem
      | dsimp only at hmem
    all_goals simp_all [optTruthy]
  · intro hsearch htf cid2 ops hmem op hop
    unfold update_campaign at hmem
    rw [runTool_snd] at hmem
    unfold update_campaign_try at hmem
    repeat' first
      | split at hmem
      | dsimp only at hmem
    all_goals try simp_all [optTruthy]
    all_goals rcases hop with hop | hop <;> simp_all [isBudgetUpdate]
  · intro hsucc
    unfold update_campaign at hsucc ⊢
    rw [runTool_snd]
    cases hf : (update_campaign_try env customer_id campaign_id status name
        ubg).fst with
    | error e =>
      rw [runTool_fst_error _ _ hf] at hsucc
      rcases exceptionResult_shape e with ⟨s, hs⟩
      rw [hs] at hsucc
      simp [dictGet] at hsucc
    | ok r =>
      rw [runTool_fst_ok _ _ hf] at hsucc ⊢
      exact update_campaign_budget_flag env customer_id campaign_id status
        name ubg r hf hsucc
  · intro hsearch htf
    unfold update_campaign update_campaign_try
    simp [runTool, hsearch, htf]

/-- Witness for C6 (discharging its conditional parts at concrete inputs):
with a client that finds a budget, the submitted operations start with the
exact budget update; with a client that finds none and no campaign fields,
the tool reports no valid updates after only the search. -/
theorem claim_C6_witness :
    ((update_campaign envOk "1" "22" (some "ENABLED") none
        (some 75)).snd.head? =
      some (VendorCall.searchCall "1" (budget_query "22"))) ∧
    ([MutateOperation.campaignBudgetUpdate "customers/1/campaignBudgets/11"
        75 ["amount_micros"],
      MutateOperation.campaignUpdate "customers/1/campaigns/22"
        (some "ENABLED") none ["status"]].head? =
      some (MutateOperation.campaignBudgetUpdate
        "customers/1/campaignBudgets/11" 75 ["amount_micros"])) ∧
    (update_campaign envNoBudget "1" "22" none none (some 75) =
      ([("success", Value.vBool false),
        ("error", Value.vStr "No valid updates to perform")],
       [VendorCall.searchCall "1" (budget_query "22")])) :=
  ⟨(claim_C6 envOk "1" "22" (some "ENABLED") none 75
      [⟨[⟨"customers/1/campaignBudgets/11"⟩]⟩] (some 75)).1,
   (claim_C6 envOk "1" "22" (some "ENABLED") none 75
      [⟨[⟨"customers/1/campaignBudgets/11"⟩]⟩] (some 75)).2.1 rfl
     "customers/1/campaignBudgets/11" rfl (by decide) "1"
     [MutateOperation.campaignBudgetUpdate "customers/1/campaignBudgets/11"
        75 ["amount_micros"],
      MutateOperation.campaignUpdate "customers/1/campaigns/22"
        (some "ENABLED") none ["status"]] (by decide),
   (claim_C6 envNoBudget "1" "22" none none 75 [] (some 75)).2.2.2.2 rfl
     (by decide)⟩

end AdsMcp
